import Mathlib

/-!
# PrimeHaul Leads — verification of the pricing, geo and matching core

A shallow embedding of the pricing engine (`app/pricing.py`), the geo
distance primitive (`app/geo.py`), the matching and distribution engine
(`app/lead_matching.py`) and the relevant schema facts (`app/models.py`),
together with theorems settling the specification claims about them.

Python floats are modelled as real numbers; `Numeric` database columns as
rationals; nullable columns as `Option`; machine integers as `Int`/`Nat`.
JSONB dictionaries are modelled as structures holding the values the code
reads out of them (`dict.get` defaults folded into `Option`).
-/

open Real

namespace PrimeHaul

/-- Python `int(x)` truncates toward zero: floor for nonnegative reals,
ceiling for negative ones. -/
noncomputable def pyInt (x : ℝ) : ℤ :=
  if 0 ≤ x then ⌊x⌋ else ⌈x⌉

/-- Python truthiness of an optional float: `None` and `0.0` are falsy,
every other float is truthy. Used by `all([...])` checks over coordinates. -/
def pyTruthy (o : Option ℝ) : Prop :=
  match o with
  | none => False
  | some x => x ≠ 0

noncomputable instance : DecidablePred pyTruthy := by
  intro o
  cases o with
  | none => exact isFalse (fun h => h)
  | some x => exact decidable_of_iff (x ≠ 0) Iff.rfl

/-! ## Geo distance primitive (`app/geo.py`) -/

/-- `geo.py` line 5: `validate_coordinates` — true iff lat/lng lie within
the valid WGS-84 ranges. -/
def validate_coordinates (lat lng : ℝ) : Prop :=
  -90 ≤ lat ∧ lat ≤ 90 ∧ -180 ≤ lng ∧ lng ≤ 180

/-- `math.radians`: degrees to radians. -/
noncomputable def radians (x : ℝ) : ℝ := x * π / 180

/-- `math.atan2 y x`, the two-argument arctangent. -/
noncomputable def atan2 (y x : ℝ) : ℝ :=
  if 0 < x then arctan (y / x)
  else if x < 0 ∧ 0 ≤ y then arctan (y / x) + π
  else if x < 0 ∧ y < 0 then arctan (y / x) - π
  else if x = 0 ∧ 0 < y then π / 2
  else if x = 0 ∧ y < 0 then -(π / 2)
  else 0

/-- The haversine quantity `a` computed at `geo.py` line 22. -/
noncomputable def haversine_a (lat1 lng1 lat2 lng2 : ℝ) : ℝ :=
  sin (radians (lat2 - lat1) / 2) ^ 2 +
    cos (radians lat1) * cos (radians lat2) * sin (radians (lng2 - lng1) / 2) ^ 2

/-- `geo.py` lines 10–24: `calculate_distance_miles`. Returns `0.0` when a
coordinate is out of range, otherwise `R * c` with `R = 3959` and
`c = 2 * atan2(sqrt a, sqrt (1 - a))`. -/
noncomputable instance : ∀ lat lng, Decidable (validate_coordinates lat lng) := by
  intro lat lng
  unfold validate_coordinates
  infer_instance

noncomputable def calculate_distance_miles (lat1 lng1 lat2 lng2 : ℝ) : ℝ :=
  if ¬(validate_coordinates lat1 lng1 ∧ validate_coordinates lat2 lng2) then 0
  else
    3959 * (2 * atan2 (Real.sqrt (haversine_a lat1 lng1 lat2 lng2))
      (Real.sqrt (1 - haversine_a lat1 lng1 lat2 lng2)))

/-- Modelled from the spec's words: "great-circle distance in miles using
the haversine formula on a sphere of radius 3959 miles", in the textbook
arcsine form `d = 2 R arcsin (sqrt a)`. Used to compare the code's
`atan2` formulation against the spec. -/
noncomputable def haversine_spec_miles (lat1 lng1 lat2 lng2 : ℝ) : ℝ :=
  2 * 3959 * arcsin (Real.sqrt (haversine_a lat1 lng1 lat2 lng2))

/-! ## Pricing constants (`app/pricing.py` lines 8–31) -/

def BASE_FEE : ℚ := 250
def PRICE_PER_CBM : ℚ := 35
def BULKY_ITEM_FEE : ℚ := 25
def FRAGILE_ITEM_FEE : ℚ := 15
def WEIGHT_THRESHOLD_KG : ℚ := 1000
def PRICE_PER_KG_OVER : ℚ := 1/2
def PRICE_PER_MILE : ℚ := 3/2
def FREE_MILES : ℚ := 10
def PRICE_PER_FLOOR : ℚ := 15
def NO_LIFT_SURCHARGE : ℚ := 50
def PARKING_DISTANCE_PER_50M : ℚ := 10
def NARROW_ACCESS_FEE : ℚ := 35
def TIME_RESTRICTION_FEE : ℚ := 25
def BOOKING_REQUIRED_FEE : ℚ := 20
def OUTDOOR_STEPS_PER_5 : ℚ := 15
def OUTDOOR_PATH_FEE : ℚ := 20
def LOW_MULTIPLIER : ℚ := 17/20
def HIGH_MULTIPLIER : ℚ := 5/4

/-- `PARKING_FEES` lookup table with `.get(parking, 0)` default folded in
(`pricing.py` line 21 and line 47). -/
def PARKING_FEES (s : String) : ℚ :=
  if s = "driveway" then 0
  else if s = "street" then 25
  else if s = "permit" then 40
  else if s = "limited" then 60
  else 0

/-- The access-difficulty JSONB dictionary, holding the values
`_access_cost` reads from it: each numeric `.get(key, 0) or 0` is folded
into a plain **signed** integer (the survey flow stores unvalidated
`int(...)` form values into this JSONB, so negative counts are
representable), each flag into a `Bool`, and the
`.get("parking_type", "driveway")` default into a plain string. -/
structure AccessData where
  floors : ℤ
  has_lift : Bool
  parking_type : String
  parking_distance_m : ℤ
  narrow_access : Bool
  time_restriction : Bool
  booking_required : Bool
  outdoor_steps : ℤ
  outdoor_path : Bool

/-- `pricing.py` lines 34–68: `_access_cost`. `none` models Python's
falsy `access_data` (`None` or `{}`), which returns `0.0` at line 37.
The Python accumulator (`cost += ...` per surcharge) is written as the
sum of its increments, one summand per `cost +=` statement in source
order: per-floor fee, no-lift surcharge, parking-type fee,
parking-distance fee (note: `max(1, parking_distance // 50)` increments,
i.e. floor division with a minimum of one), flat flags, outdoor-steps
fee (ceiling-rounded per 5 steps), outdoor-path fee. -/
def access_cost (access_data : Option AccessData) : ℚ :=
  match access_data with
  | none => 0
  | some a =>
    (a.floors : ℚ) * PRICE_PER_FLOOR
    + (if 0 < a.floors ∧ a.has_lift = false then NO_LIFT_SURCHARGE else 0)
    + PARKING_FEES a.parking_type
    + (if 0 < a.parking_distance_m then
        ((max 1 (a.parking_distance_m / 50) : ℤ) : ℚ) * PARKING_DISTANCE_PER_50M else 0)
    + (if a.narrow_access then NARROW_ACCESS_FEE else 0)
    + (if a.time_restriction then TIME_RESTRICTION_FEE else 0)
    + (if a.booking_required then BOOKING_REQUIRED_FEE else 0)
    + (if 0 < a.outdoor_steps then
        (((a.outdoor_steps / 5 + if a.outdoor_steps % 5 ≠ 0 then 1 else 0 : ℤ)) : ℚ)
          * OUTDOOR_STEPS_PER_5 else 0)
    + (if a.outdoor_path then OUTDOOR_PATH_FEE else 0)

/-- A location JSONB dictionary (`lead.pickup` / `lead.dropoff`): holds the
optional `lat` and `lng` values the code reads with `.get`. -/
structure Location where
  lat : Option ℝ
  lng : Option ℝ

/-- The lead fields read by the pricing and matching engines
(`app/models.py`, class `Lead`). Nullable columns are `Option`;
`Numeric(10,2)` columns are rationals. -/
structure Lead where
  id : ℕ
  pickup : Option Location
  dropoff : Option Location
  property_type : Option String
  pickup_access : Option AccessData
  dropoff_access : Option AccessData
  total_cbm : Option ℚ
  total_weight_kg : Option ℚ
  bulky_items : Option ℤ
  fragile_items : Option ℤ
  status : String

/-- `pricing.py` lines 97–106: the distance-pricing component of
`calculate_lead_estimate`. The `all([...])` test uses Python truthiness,
so a coordinate that is `None` **or exactly zero** disables distance
pricing. (An empty `pickup`/`dropoff` dict is falsy in Python; it is
subsumed here by `pyTruthy` failing on its absent coordinates, with the
same result `0.0`.) -/
noncomputable def distance_cost (lead : Lead) : ℝ :=
  match lead.pickup, lead.dropoff with
  | some p, some q =>
    if pyTruthy p.lat ∧ pyTruthy p.lng ∧ pyTruthy q.lat ∧ pyTruthy q.lng then
      let miles := calculate_distance_miles (p.lat.getD 0) (p.lng.getD 0)
        (q.lat.getD 0) (q.lng.getD 0)
      if miles > (FREE_MILES : ℝ) then (miles - (FREE_MILES : ℝ)) * (PRICE_PER_MILE : ℝ)
      else 0
    else 0
  | _, _ => 0

/-- `pricing.py` lines 92–94: weight overage component. -/
def weight_cost (lead : Lead) : ℚ :=
  if lead.total_weight_kg.getD 0 > WEIGHT_THRESHOLD_KG then
    (lead.total_weight_kg.getD 0 - WEIGHT_THRESHOLD_KG) * PRICE_PER_KG_OVER
  else 0

/-- `pricing.py` line 113: the variable `total`, the sum of all fee
components of `calculate_lead_estimate`. -/
noncomputable def subtotal (lead : Lead) : ℝ :=
  (BASE_FEE : ℝ)
    + ((lead.total_cbm.getD 0 : ℚ) : ℝ) * (PRICE_PER_CBM : ℝ)
    + ((lead.bulky_items.getD 0 : ℤ) : ℝ) * (BULKY_ITEM_FEE : ℝ)
    + ((lead.fragile_items.getD 0 : ℤ) : ℝ) * (FRAGILE_ITEM_FEE : ℝ)
    + ((weight_cost lead : ℚ) : ℝ)
    + distance_cost lead
    + ((access_cost lead.pickup_access + access_cost lead.dropoff_access : ℚ) : ℝ)

/-- `pricing.py` line 114: `estimate_low = max(int(total * LOW_MULTIPLIER), 150)`. -/
noncomputable def estimate_low (lead : Lead) : ℤ :=
  max (pyInt (subtotal lead * (LOW_MULTIPLIER : ℝ))) 150

/-- `pricing.py` line 115: `estimate_high = int(total * HIGH_MULTIPLIER)`. -/
noncomputable def estimate_high (lead : Lead) : ℤ :=
  pyInt (subtotal lead * (HIGH_MULTIPLIER : ℝ))

/-! ## Lead price lookup (`app/pricing.py` lines 133–149) -/

/-- A `LeadPricingTier` row as the lookup reads it (`app/models.py`
lines 237–246): minimum volume, optional maximum volume, price in pence.
The function receives the query result: active tiers ordered by
ascending `min_cbm`. -/
structure LeadPricingTier where
  min_cbm : ℚ
  max_cbm : Option ℚ
  price_pence : ℤ

/-- `pricing.py` lines 133–149: `calculate_lead_price_pence`. The guard
`if tier.max_cbm` is Python truthiness, so a `None` **or zero** maximum is
replaced by `99999`; the first tier with `min_cbm ≤ total_cbm ≤ max_cbm`
wins, else the default 1000 pence. -/
def calculate_lead_price_pence (total_cbm : ℚ) : List LeadPricingTier → ℤ
  | [] => 1000
  | tier :: rest =>
    let max_cbm : ℚ :=
      match tier.max_cbm with
      | none => 99999
      | some m => if m = 0 then 99999 else m
    if tier.min_cbm ≤ total_cbm ∧ total_cbm ≤ max_cbm then tier.price_pence
    else calculate_lead_price_pence total_cbm rest

/-- Modelled from the spec's words: "return the price of the first tier
where `tier.min ≤ volume ≤ tier.max` (an unset/null maximum is treated as
unbounded). If no tier matches, return a fixed default price" of 1000. -/
def spec_lead_price_pence (total_cbm : ℚ) : List LeadPricingTier → ℤ
  | [] => 1000
  | tier :: rest =>
    match tier.max_cbm with
    | none =>
      if tier.min_cbm ≤ total_cbm then tier.price_pence
      else spec_lead_price_pence total_cbm rest
    | some m =>
      if tier.min_cbm ≤ total_cbm ∧ total_cbm ≤ m then tier.price_pence
      else spec_lead_price_pence total_cbm rest

/-! ## Matching engine (`app/lead_matching.py`) -/

/-- Python `str.lower()` on the ASCII strings used for property types:
lower-case every character. -/
def py_lower (s : String) : String := ⟨s.data.map Char.toLower⟩

/-- Python `str.strip()`: drop leading and trailing whitespace. -/
def py_strip (s : String) : String :=
  ⟨((s.data.dropWhile Char.isWhitespace).reverse.dropWhile Char.isWhitespace).reverse⟩

/-- The company fields read by the matching engine (`app/models.py`,
class `Company`). -/
structure Company where
  id : ℕ
  is_active : Bool
  base_lat : Option ℝ
  base_lng : Option ℝ
  service_radius_miles : Option ℤ
  pref_min_cbm : Option ℚ
  pref_max_cbm : Option ℚ
  pref_property_types : Option (List String)

/-- `lead_matching.py` line 71: `radius = company.service_radius_miles or 30`.
Python truthiness again: `None` **and `0`** both fall back to 30. -/
def effective_radius (c : Company) : ℤ :=
  match c.service_radius_miles with
  | none => 30
  | some r => if r = 0 then 30 else r

/-- `lead_matching.py` lines 84–92: the property-type preference filter.
A falsy `pref_property_types` (`None` or `[]`) applies no filter;
otherwise the lead's property type must appear, lower-cased, among the
lower-cased entries (falsy entries, i.e. empty strings, are dropped by
`if t` in the comprehension). -/
def property_type_ok (lead_property_type : String) (c : Company) : Prop :=
  match c.pref_property_types with
  | none => True
  | some ts =>
    if ts = [] then True
    else py_lower lead_property_type ∈ (ts.filter (fun t => t ≠ "")).map py_lower

instance : ∀ s c, Decidable (property_type_ok s c) := by
  intro s c
  unfold property_type_ok
  cases c.pref_property_types <;> dsimp <;> infer_instance

/-- `lead_matching.py` lines 63–94: the per-company filter chain of
`find_matching_companies` (each `continue` is a failed conjunct). -/
def company_passes (pickup_lat pickup_lng : ℝ) (lead_cbm : ℚ)
    (lead_property_type : String) (c : Company) : Prop :=
  ¬(calculate_distance_miles (c.base_lat.getD 0) (c.base_lng.getD 0) pickup_lat pickup_lng
      > ((effective_radius c : ℤ) : ℝ))
  ∧ (match c.pref_min_cbm with | none => True | some m => ¬(lead_cbm < m))
  ∧ (match c.pref_max_cbm with | none => True | some m => ¬(lead_cbm > m))
  ∧ property_type_ok lead_property_type c

noncomputable instance : ∀ plat plng cbm pt c,
    Decidable (company_passes plat plng cbm pt c) :=
  fun _ _ _ _ _ => Classical.propDecidable _

/-- The `for company in companies` loop of `find_matching_companies`:
keeps the companies passing every filter, in order. -/
noncomputable def matchFilter (plat plng : ℝ) (cbm : ℚ) (ptype : String) :
    List Company → List Company
  | [] => []
  | c :: rest =>
    if company_passes plat plng cbm ptype c then c :: matchFilter plat plng cbm ptype rest
    else matchFilter plat plng cbm ptype rest

/-- `lead_matching.py` lines 21–108: `find_matching_companies`. Returns
`[]` when the pickup dict is absent or has no `lat`/`lng` (lines 36–45);
otherwise filters the active companies having base coordinates (the query
at lines 48–56) through the per-company filter chain. The second argument
models the full `companies` table the query reads. -/
noncomputable def find_matching_companies (lead : Lead) (companies : List Company) :
    List Company :=
  match lead.pickup.bind Location.lat, lead.pickup.bind Location.lng with
  | some plat, some plng =>
    let candidates :=
      companies.filter (fun c => c.is_active && c.base_lat.isSome && c.base_lng.isSome)
    matchFilter plat plng (lead.total_cbm.getD 0) (py_strip (lead.property_type.getD ""))
      candidates
  | _, _ => []

/-! ## Distribution (`app/lead_matching.py` lines 114–211) and schema
facts (`app/models.py`) -/

/-- A `lead_notifications` row as `distribute_lead` creates it
(`models.py` lines 214–231; timestamps omitted). -/
structure LeadNotification where
  lead_id : ℕ
  company_id : ℕ
  notification_method : String

/-- `models.py` lines 216–218: the `lead_notifications` table declares
`Index("idx_notification_company_lead", "company_id", "lead_id")` with no
`unique=True` flag, so the (company, lead) pair is **not** unique at the
storage layer. -/
def lead_notifications_pair_unique : Bool := false

/-- `models.py` lines 192–194, for contrast: `lead_purchases` declares
`Index(..., "company_id", "lead_id", unique=True)`. -/
def lead_purchases_pair_unique : Bool := true

/-- `lead_matching.py` lines 114–211: `distribute_lead`, modelled on the
persistent state it reads and writes: the `leads` and `companies` tables
and the current `lead_notifications` rows. Loads the lead (line 135),
returns unchanged if missing or not `active` (lines 136–146), otherwise
appends one new notification row per matched company (lines 178–200; an
empty match list returns early at lines 151–153 with the same effect as
appending nothing; e-mail sending has no effect on the rows). Since the
(company, lead) index is not unique, the inserts always succeed. -/
noncomputable def distribute_lead (leads : List Lead) (companies : List Company)
    (notifs : List LeadNotification) (lead_id : ℕ) : List LeadNotification :=
  match leads.find? (fun l => l.id == lead_id) with
  | none => notifs
  | some lead =>
    if lead.status ≠ "active" then notifs
    else
      notifs ++ (find_matching_companies lead companies).map
        (fun c => ⟨lead.id, c.id, "email"⟩)

/-- Number of notification rows for a given (lead, company) pair. -/
def countPair (notifs : List LeadNotification) (lid cid : ℕ) : ℕ :=
  (notifs.filter (fun n => n.lead_id == lid && n.company_id == cid)).length

/-! ## Lemmas about the geo primitive -/

theorem radians_sub (a b : ℝ) : radians (a - b) = radians a - radians b := by
  unfold radians; ring

theorem radians_mem_Icc {lat : ℝ} (h1 : -90 ≤ lat) (h2 : lat ≤ 90) :
    radians lat ∈ Set.Icc (-(π / 2)) (π / 2) := by
  unfold radians
  constructor <;> nlinarith [pi_pos]

theorem haversine_a_self (lat lng : ℝ) : haversine_a lat lng lat lng = 0 := by
  unfold haversine_a radians
  simp

theorem atan2_zero_one : atan2 0 1 = 0 := by
  unfold atan2
  rw [if_pos one_pos]
  simp [Real.arctan_zero]

theorem haversine_a_nonneg {lat1 lng1 lat2 lng2 : ℝ}
    (h1 : validate_coordinates lat1 lng1) (h2 : validate_coordinates lat2 lng2) :
    0 ≤ haversine_a lat1 lng1 lat2 lng2 := by
  unfold haversine_a
  have hc1 : 0 ≤ cos (radians lat1) :=
    Real.cos_nonneg_of_mem_Icc (radians_mem_Icc h1.1 h1.2.1)
  have hc2 : 0 ≤ cos (radians lat2) :=
    Real.cos_nonneg_of_mem_Icc (radians_mem_Icc h2.1 h2.2.1)
  have ha := sq_nonneg (sin (radians (lat2 - lat1) / 2))
  have hb := sq_nonneg (sin (radians (lng2 - lng1) / 2))
  nlinarith [mul_nonneg (mul_nonneg hc1 hc2) hb]

theorem haversine_a_le_one {lat1 lng1 lat2 lng2 : ℝ}
    (h1 : validate_coordinates lat1 lng1) (h2 : validate_coordinates lat2 lng2) :
    haversine_a lat1 lng1 lat2 lng2 ≤ 1 := by
  unfold haversine_a
  rw [radians_sub lat2 lat1]
  have hc1 : 0 ≤ cos (radians lat1) :=
    Real.cos_nonneg_of_mem_Icc (radians_mem_Icc h1.1 h1.2.1)
  have hc2 : 0 ≤ cos (radians lat2) :=
    Real.cos_nonneg_of_mem_Icc (radians_mem_Icc h2.1 h2.2.1)
  have hs : sin (radians (lng2 - lng1) / 2) ^ 2 ≤ 1 := Real.sin_sq_le_one _
  have hhalf : sin ((radians lat2 - radians lat1) / 2) ^ 2
      = 1 / 2 - cos (radians lat2 - radians lat1) / 2 := by
    rw [Real.sin_sq_eq_half_sub]
    ring_nf
  have hsub := Real.cos_sub (radians lat2) (radians lat1)
  have hadd := Real.cos_add (radians lat2) (radians lat1)
  have hle := Real.cos_le_one (radians lat2 + radians lat1)
  nlinarith [mul_nonneg hc1 hc2, sq_nonneg (sin (radians (lng2 - lng1) / 2))]

theorem atan2_sqrt_eq_arcsin {a : ℝ} (h0 : 0 ≤ a) (h1 : a ≤ 1) :
    atan2 (Real.sqrt a) (Real.sqrt (1 - a)) = arcsin (Real.sqrt a) := by
  rcases lt_or_eq_of_le h1 with hlt | heq
  · have hpos : 0 < Real.sqrt (1 - a) := Real.sqrt_pos.mpr (by linarith)
    unfold atan2
    rw [if_pos hpos]
    have hmem : Real.sqrt a ∈ Set.Ioo (-(1 : ℝ)) 1 := by
      constructor
      · linarith [Real.sqrt_nonneg a]
      · calc Real.sqrt a < Real.sqrt 1 := Real.sqrt_lt_sqrt h0 hlt
          _ = 1 := Real.sqrt_one
    rw [Real.arcsin_eq_arctan hmem, Real.sq_sqrt h0]
  · subst heq
    unfold atan2
    rw [sub_self, Real.sqrt_zero, Real.sqrt_one]
    have h01 : ¬(0 : ℝ) < 0 := lt_irrefl 0
    rw [if_neg h01, if_neg (by simp), if_neg (by simp),
      if_pos ⟨rfl, one_pos⟩, Real.arcsin_one]

/-- C6. The distance primitive: out-of-range coordinates yield `0.0`
without raising; in-range coordinates yield the haversine great-circle
distance on a sphere of radius 3959 miles; identical valid points yield
exactly `0.0`. -/
theorem C6_distance_contract (lat1 lng1 lat2 lng2 : ℝ) :
    (¬(validate_coordinates lat1 lng1 ∧ validate_coordinates lat2 lng2) →
      calculate_distance_miles lat1 lng1 lat2 lng2 = 0)
    ∧ (validate_coordinates lat1 lng1 → validate_coordinates lat2 lng2 →
      calculate_distance_miles lat1 lng1 lat2 lng2
        = haversine_spec_miles lat1 lng1 lat2 lng2)
    ∧ (lat1 = lat2 → lng1 = lng2 → validate_coordinates lat1 lng1 →
      calculate_distance_miles lat1 lng1 lat2 lng2 = 0) := by
  refine ⟨fun h => ?_, fun h1 h2 => ?_, fun heq1 heq2 hv => ?_⟩
  · unfold calculate_distance_miles
    rw [if_pos h]
  · unfold calculate_distance_miles haversine_spec_miles
    rw [if_neg (not_not_intro ⟨h1, h2⟩),
      atan2_sqrt_eq_arcsin (haversine_a_nonneg h1 h2) (haversine_a_le_one h1 h2)]
    ring
  · subst heq1; subst heq2
    unfold calculate_distance_miles
    rw [if_neg (not_not_intro ⟨hv, hv⟩), haversine_a_self]
    rw [Real.sqrt_zero, sub_zero, Real.sqrt_one, atan2_zero_one]
    ring

/-- Witness for C6 at concrete inputs: an out-of-range latitude 91 gives
distance 0 to the origin; the identical valid point (51, -1) is at
distance 0 from itself; at the origin pair the code equals the spec
formula. -/
theorem C6_distance_contract_witness :
    calculate_distance_miles 91 0 0 0 = 0
    ∧ calculate_distance_miles 51 (-1) 51 (-1) = 0
    ∧ calculate_distance_miles 0 0 0 0 = haversine_spec_miles 0 0 0 0 := by
  refine ⟨(C6_distance_contract 91 0 0 0).1 ?_,
    (C6_distance_contract 51 (-1) 51 (-1)).2.2 rfl rfl ?_,
    (C6_distance_contract 0 0 0 0).2.1 ?_ ?_⟩
  · intro h
    have := h.1.2.1
    norm_num at this
  · unfold validate_coordinates
    norm_num
  · unfold validate_coordinates
    norm_num
  · unfold validate_coordinates
    norm_num

/-! ## Lemmas about the pricing engine -/

theorem pyInt_of_nonneg {x : ℝ} (h : 0 ≤ x) : pyInt x = ⌊x⌋ := if_pos h

theorem pyInt_of_neg {x : ℝ} (h : x < 0) : pyInt x = ⌈x⌉ := if_neg (not_le.mpr h)

theorem pyInt_mono {x y : ℝ} (h : x ≤ y) : pyInt x ≤ pyInt y := by
  unfold pyInt
  by_cases hx : 0 ≤ x <;> by_cases hy : 0 ≤ y
  · rw [if_pos hx, if_pos hy]
    exact Int.floor_mono h
  · exact absurd (le_trans hx h) hy
  · rw [if_neg hx, if_pos hy]
    have h1 : (⌈x⌉ : ℤ) ≤ 0 := Int.ceil_le.mpr (by exact_mod_cast (le_of_lt (not_le.mp hx)))
    have h2 : (0 : ℤ) ≤ ⌊y⌋ := Int.le_floor.mpr (by exact_mod_cast hy)
    omega
  · rw [if_neg hx, if_neg hy]
    exact Int.ceil_mono h

/-- Every `_access_cost` surcharge except the per-floor fee is
nonnegative (the parking-distance and outdoor-steps increments sit under
positivity guards, the rest are nonnegative constants); a negative
stored `floors` value is the one way an access record can push the
estimate subtotal down. -/
theorem access_cost_nonneg_of_floors (o : Option AccessData)
    (h : ∀ a, o = some a → 0 ≤ a.floors) : 0 ≤ access_cost o := by
  cases o with
  | none => simp [access_cost]
  | some a =>
    have hfl : (0 : ℚ) ≤ (a.floors : ℚ) := by exact_mod_cast h a rfl
    unfold access_cost PARKING_FEES PRICE_PER_FLOOR NO_LIFT_SURCHARGE
      PARKING_DISTANCE_PER_50M NARROW_ACCESS_FEE TIME_RESTRICTION_FEE
      BOOKING_REQUIRED_FEE OUTDOOR_STEPS_PER_5 OUTDOOR_PATH_FEE
    dsimp only
    refine add_nonneg (add_nonneg (add_nonneg (add_nonneg (add_nonneg
      (add_nonneg (add_nonneg (add_nonneg ?_ ?_) ?_) ?_) ?_) ?_) ?_) ?_) ?_
    · exact mul_nonneg hfl (by norm_num)
    · split_ifs <;> norm_num
    · split_ifs <;> norm_num
    · split_ifs with hd
      · have h1 : (1 : ℤ) ≤ max 1 (a.parking_distance_m / 50) := le_max_left _ _
        have h2 : (0 : ℚ) ≤ ((max 1 (a.parking_distance_m / 50) : ℤ) : ℚ) := by
          exact_mod_cast le_trans zero_le_one h1
        exact mul_nonneg h2 (by norm_num)
      · exact le_refl 0
    · split_ifs <;> norm_num
    · split_ifs <;> norm_num
    · split_ifs <;> norm_num
    · by_cases hs : 0 < a.outdoor_steps
      · rw [if_pos hs]
        have h1 : (0 : ℤ) ≤ a.outdoor_steps / 5 := Int.ediv_nonneg hs.le (by norm_num)
        have h2 : (0 : ℤ) ≤ (if a.outdoor_steps % 5 ≠ 0 then 1 else 0 : ℤ) := by
          split_ifs <;> norm_num
        have h3 : (0 : ℚ)
            ≤ ((a.outdoor_steps / 5 + if a.outdoor_steps % 5 ≠ 0 then 1 else 0 : ℤ) : ℚ) := by
          exact_mod_cast add_nonneg h1 h2
        exact mul_nonneg h3 (by norm_num)
      · rw [if_neg hs]
    · split_ifs <;> norm_num

theorem weight_cost_nonneg (lead : Lead) : 0 ≤ weight_cost lead := by
  unfold weight_cost WEIGHT_THRESHOLD_KG PRICE_PER_KG_OVER
  split_ifs with h
  · nlinarith
  · exact le_refl 0

theorem distance_cost_nonneg (lead : Lead) : 0 ≤ distance_cost lead := by
  unfold distance_cost
  cases lead.pickup with
  | none => exact le_refl 0
  | some p =>
    cases lead.dropoff with
    | none => exact le_refl 0
    | some q =>
      dsimp only
      split_ifs with h1 h2
      · have : (FREE_MILES : ℝ) < calculate_distance_miles (p.lat.getD 0) (p.lng.getD 0)
            (q.lat.getD 0) (q.lng.getD 0) := h2
        have hm : (0:ℝ) ≤ (3/2 : ℚ) := by norm_num
        unfold PRICE_PER_MILE
        nlinarith
      · exact le_refl 0
      · exact le_refl 0

/-! ## C2 — tier lookup -/

/-- C2 counterexample: with the single active tier (min 30, max null,
price 3500) and volume 100000, the code returns the default 1000 because
a null maximum is replaced by 99999, while the claim (null maximum =
unbounded, so every volume ≥ 30 matches) requires 3500. -/
theorem C2_tier_lookup_counterexample :
    calculate_lead_price_pence 100000 [⟨30, none, 3500⟩] = 1000
    ∧ spec_lead_price_pence 100000 [⟨30, none, 3500⟩] = 3500 := by
  constructor <;> decide

/-- C2 (amended): the lookup returns the price of the first tier with
`min ≤ volume ≤ max`, where an unset/null maximum is treated as a cap of
99999 rather than unbounded (and likewise a maximum of exactly 0); the
default is 1000 pence. Equivalently, the spec's unbounded reading is
correct exactly for volumes ≤ 99999 over tiers with no zero maximum. -/
theorem C2_tier_lookup_amended (v : ℚ) (tiers : List LeadPricingTier)
    (hv : v ≤ 99999) (hz : ∀ t ∈ tiers, t.max_cbm ≠ some 0) :
    calculate_lead_price_pence v tiers = spec_lead_price_pence v tiers := by
  induction tiers with
  | nil => rfl
  | cons t rest ih =>
    have ht := hz t (List.mem_cons_self t rest)
    have hrest : ∀ t' ∈ rest, t'.max_cbm ≠ some 0 :=
      fun t' h' => hz t' (List.mem_cons_of_mem t h')
    cases hmc : t.max_cbm with
    | none =>
      unfold calculate_lead_price_pence spec_lead_price_pence
      rw [hmc]
      dsimp only
      by_cases hmin : t.min_cbm ≤ v
      · rw [if_pos ⟨hmin, hv⟩, if_pos hmin]
      · rw [if_neg (fun hc => hmin hc.1), if_neg hmin]
        exact ih hrest
    | some m =>
      have hm : ¬(m = 0) := fun h => ht (by rw [hmc, h])
      unfold calculate_lead_price_pence spec_lead_price_pence
      rw [hmc]
      dsimp only
      rw [if_neg hm]
      by_cases hcond : t.min_cbm ≤ v ∧ v ≤ m
      · rw [if_pos hcond, if_pos hcond]
      · rw [if_neg hcond, if_neg hcond]
        exact ih hrest

/-- Witness for C2 (amended) at the spec's own example: volume 25 over
tiers [(0,10,1000),(10,30,2000),(30,null,3500)]. -/
theorem C2_tier_lookup_amended_witness :
    calculate_lead_price_pence 25 [⟨0, some 10, 1000⟩, ⟨10, some 30, 2000⟩, ⟨30, none, 3500⟩]
      = spec_lead_price_pence 25 [⟨0, some 10, 1000⟩, ⟨10, some 30, 2000⟩, ⟨30, none, 3500⟩] :=
  C2_tier_lookup_amended 25 _ (by norm_num) (by decide)

/-! ## C3 — parking-distance fee -/

/-- C3 counterexample: at parking distance 60 m (all other access fields
trivial) the code charges one increment (fee 10), not the
ceil(60/50) = 2 increments (fee 20) the claim requires. -/
theorem C3_parking_ceil_counterexample :
    access_cost (some ⟨0, false, "driveway", 60, false, false, false, 0, false⟩) = 10
    ∧ access_cost (some ⟨0, false, "driveway", 60, false, false, false, 0, false⟩) ≠ 20 := by
  constructor <;>
    norm_num [access_cost, PARKING_FEES, PRICE_PER_FLOOR, NO_LIFT_SURCHARGE,
      PARKING_DISTANCE_PER_50M, NARROW_ACCESS_FEE, TIME_RESTRICTION_FEE,
      BOOKING_REQUIRED_FEE, OUTDOOR_STEPS_PER_5, OUTDOOR_PATH_FEE]

/-- C3 (amended): for parking distance d > 0 the fee adds
`max(1, floor(d / 50))` increments of the per-50-metre rate — partial
increments beyond the first complete one are *not* rounded up, but a
minimum of one increment is charged; for d = 0 no parking-distance fee
is added. -/
theorem C3_parking_fee_amended (a : AccessData) :
    access_cost (some a)
      = access_cost (some {a with parking_distance_m := 0})
        + (if 0 < a.parking_distance_m then
            ((max 1 (a.parking_distance_m / 50) : ℤ) : ℚ) * PARKING_DISTANCE_PER_50M
          else 0) := by
  unfold access_cost
  dsimp only
  rw [if_neg (lt_irrefl 0)]
  ring

/-! ## C4 — estimate range -/

/-- C4 counterexample: a lead with `total_cbm = -20` (all other fields
empty) has subtotal -450; `int()` truncation gives
`estimate_low = max(-382, 150) = 150` and `estimate_high = -562`, so
`estimate_low ≤ estimate_high` fails, and `estimate_high` also differs
from the claimed `floor(subtotal * 1.25) = -563`. -/
theorem C4_estimate_range_counterexample :
    estimate_low ⟨0, none, none, none, none, none, some (-20), none, none, none, "active"⟩ = 150
    ∧ estimate_high ⟨0, none, none, none, none, none, some (-20), none, none, none, "active"⟩
        = -562
    ∧ ¬(estimate_low ⟨0, none, none, none, none, none, some (-20), none, none, none, "active"⟩
        ≤ estimate_high ⟨0, none, none, none, none, none, some (-20), none, none, none, "active"⟩)
    ∧ estimate_high ⟨0, none, none, none, none, none, some (-20), none, none, none, "active"⟩
        ≠ ⌊subtotal ⟨0, none, none, none, none, none, some (-20), none, none, none, "active"⟩
            * ((HIGH_MULTIPLIER : ℚ) : ℝ)⌋ := by
  have hsub : subtotal ⟨0, none, none, none, none, none, some (-20), none, none, none, "active"⟩
      = -450 := by
    norm_num [subtotal, weight_cost, distance_cost, access_cost, BASE_FEE, PRICE_PER_CBM,
      BULKY_ITEM_FEE, FRAGILE_ITEM_FEE, WEIGHT_THRESHOLD_KG, PRICE_PER_KG_OVER]
  have hlow : estimate_low ⟨0, none, none, none, none, none, some (-20), none, none, none,
      "active"⟩ = 150 := by
    unfold estimate_low pyInt
    rw [hsub]
    have h1 : (-450 : ℝ) * ((LOW_MULTIPLIER : ℚ) : ℝ) = -382.5 := by
      norm_num [LOW_MULTIPLIER]
    rw [h1, if_neg (by norm_num)]
    have h2 : ⌈(-382.5 : ℝ)⌉ = -382 := by
      rw [Int.ceil_eq_iff]
      norm_num
    rw [h2]
    norm_num
  have hhigh : estimate_high ⟨0, none, none, none, none, none, some (-20), none, none, none,
      "active"⟩ = -562 := by
    unfold estimate_high pyInt
    rw [hsub]
    have h1 : (-450 : ℝ) * ((HIGH_MULTIPLIER : ℚ) : ℝ) = -562.5 := by
      norm_num [HIGH_MULTIPLIER]
    rw [h1, if_neg (by norm_num)]
    rw [Int.ceil_eq_iff]
    norm_num
  refine ⟨hlow, hhigh, ?_, ?_⟩
  · rw [hlow, hhigh]
    norm_num
  · rw [hhigh, hsub]
    have h1 : (-450 : ℝ) * ((HIGH_MULTIPLIER : ℚ) : ℝ) = -562.5 := by
      norm_num [HIGH_MULTIPLIER]
    rw [h1]
    have h2 : ⌊(-562.5 : ℝ)⌋ = -563 := by
      rw [Int.floor_eq_iff]
      norm_num
    rw [h2]
    norm_num

/-- C4 (amended): `estimate_low ≥ 150` holds for every lead; for leads
whose volume, bulky count and fragile count are nonnegative **and whose
access records carry nonnegative floor counts** (the survey flow stores
unvalidated signed integers in these fields, for which the claim fails;
the per-floor fee is the only access surcharge that can be negative),
the subtotal is at least the 250 base fee, `int()` truncation coincides
with `floor`, the claimed formulas hold, and
`estimate_low ≤ estimate_high`. -/
theorem C4_estimate_range_amended (lead : Lead) :
    150 ≤ estimate_low lead
    ∧ (0 ≤ lead.total_cbm.getD 0 → 0 ≤ lead.bulky_items.getD 0 →
        0 ≤ lead.fragile_items.getD 0 →
        (∀ a, lead.pickup_access = some a → 0 ≤ a.floors) →
        (∀ a, lead.dropoff_access = some a → 0 ≤ a.floors) →
        estimate_low lead = max ⌊subtotal lead * ((LOW_MULTIPLIER : ℚ) : ℝ)⌋ 150
        ∧ estimate_high lead = ⌊subtotal lead * ((HIGH_MULTIPLIER : ℚ) : ℝ)⌋
        ∧ estimate_low lead ≤ estimate_high lead) := by
  constructor
  · exact le_max_right _ _
  · intro h1 h2 h3 hacc1 hacc2
    have hs : (250 : ℝ) ≤ subtotal lead := by
      unfold subtotal BASE_FEE PRICE_PER_CBM BULKY_ITEM_FEE FRAGILE_ITEM_FEE
      have c1 : (0 : ℝ) ≤ ((lead.total_cbm.getD 0 : ℚ) : ℝ) := by exact_mod_cast h1
      have c2 : (0 : ℝ) ≤ ((lead.bulky_items.getD 0 : ℤ) : ℝ) := by exact_mod_cast h2
      have c3 : (0 : ℝ) ≤ ((lead.fragile_items.getD 0 : ℤ) : ℝ) := by exact_mod_cast h3
      have c4 : (0 : ℝ) ≤ ((weight_cost lead : ℚ) : ℝ) := by
        exact_mod_cast weight_cost_nonneg lead
      have c5 := distance_cost_nonneg lead
      have c6 : (0 : ℝ) ≤ ((access_cost lead.pickup_access
          + access_cost lead.dropoff_access : ℚ) : ℝ) := by
        exact_mod_cast add_nonneg
          (access_cost_nonneg_of_floors lead.pickup_access hacc1)
          (access_cost_nonneg_of_floors lead.dropoff_access hacc2)
      push_cast
      push_cast at c6
      nlinarith [mul_nonneg c1 (by norm_num : (0:ℝ) ≤ 35),
        mul_nonneg c2 (by norm_num : (0:ℝ) ≤ 25),
        mul_nonneg c3 (by norm_num : (0:ℝ) ≤ 15)]
    have hs0 : (0 : ℝ) ≤ subtotal lead := by linarith
    have hlowf : estimate_low lead = max ⌊subtotal lead * ((LOW_MULTIPLIER : ℚ) : ℝ)⌋ 150 := by
      unfold estimate_low
      rw [pyInt_of_nonneg (mul_nonneg hs0 (by norm_num [LOW_MULTIPLIER]))]
    have hhighf : estimate_high lead = ⌊subtotal lead * ((HIGH_MULTIPLIER : ℚ) : ℝ)⌋ := by
      unfold estimate_high
      rw [pyInt_of_nonneg (mul_nonneg hs0 (by norm_num [HIGH_MULTIPLIER]))]
    refine ⟨hlowf, hhighf, ?_⟩
    rw [hlowf, hhighf]
    apply max_le
    · apply Int.floor_mono
      have hm : ((LOW_MULTIPLIER : ℚ) : ℝ) ≤ ((HIGH_MULTIPLIER : ℚ) : ℝ) := by
        norm_num [LOW_MULTIPLIER, HIGH_MULTIPLIER]
      exact mul_le_mul_of_nonneg_left hm hs0
    · apply Int.le_floor.mpr
      have hm : ((HIGH_MULTIPLIER : ℚ) : ℝ) = 1.25 := by norm_num [HIGH_MULTIPLIER]
      rw [hm]
      push_cast
      nlinarith

/-- Witness for C4 (amended) at a lead with volume 5 and empty counts. -/
theorem C4_estimate_range_amended_witness :
    150 ≤ estimate_low ⟨0, none, none, none, none, none, some 5, none, none, none, "active"⟩
    ∧ estimate_low ⟨0, none, none, none, none, none, some 5, none, none, none, "active"⟩
      ≤ estimate_high ⟨0, none, none, none, none, none, some 5, none, none, none, "active"⟩ :=
  ⟨(C4_estimate_range_amended _).1,
    ((C4_estimate_range_amended
        ⟨0, none, none, none, none, none, some 5, none, none, none, "active"⟩).2
      (by simp) (by simp) (by simp)
      (by intro a h; exact Option.noConfusion h)
      (by intro a h; exact Option.noConfusion h)).2.2⟩

/-! ## C5 — monotonicity of the high estimate in volume -/

/-- C5 counterexample: two leads identical except `total_cbm` 1 vs 1.01
both yield `estimate_high = 356` (subtotals 285 and 285.35; 1.25× gives
356.25 and 356.6875, truncating to the same integer), so a strictly
larger volume does not strictly increase the high estimate. -/
theorem C5_strict_monotonicity_counterexample :
    estimate_high ⟨0, none, none, none, none, none, some 1, none, none, none, "active"⟩ = 356
    ∧ estimate_high
        ⟨0, none, none, none, none, none, some (101/100), none, none, none, "active"⟩ = 356
    ∧ (1 : ℚ) < 101/100 := by
  have hsub1 : subtotal ⟨0, none, none, none, none, none, some 1, none, none, none, "active"⟩
      = 285 := by
    norm_num [subtotal, weight_cost, distance_cost, access_cost, BASE_FEE, PRICE_PER_CBM,
      BULKY_ITEM_FEE, FRAGILE_ITEM_FEE, WEIGHT_THRESHOLD_KG, PRICE_PER_KG_OVER]
  have hsub2 : subtotal
      ⟨0, none, none, none, none, none, some (101/100), none, none, none, "active"⟩
      = 285.35 := by
    norm_num [subtotal, weight_cost, distance_cost, access_cost, BASE_FEE, PRICE_PER_CBM,
      BULKY_ITEM_FEE, FRAGILE_ITEM_FEE, WEIGHT_THRESHOLD_KG, PRICE_PER_KG_OVER]
  refine ⟨?_, ?_, by norm_num⟩
  · unfold estimate_high pyInt
    rw [hsub1]
    have h1 : (285 : ℝ) * ((HIGH_MULTIPLIER : ℚ) : ℝ) = 356.25 := by
      norm_num [HIGH_MULTIPLIER]
    rw [h1, if_pos (by norm_num)]
    rw [Int.floor_eq_iff]
    norm_num
  · unfold estimate_high pyInt
    rw [hsub2]
    have h1 : (285.35 : ℝ) * ((HIGH_MULTIPLIER : ℚ) : ℝ) = 356.6875 := by
      norm_num [HIGH_MULTIPLIER]
    rw [h1, if_pos (by norm_num)]
    rw [Int.floor_eq_iff]
    norm_num

/-- C5 (amended): increasing `total_cbm` while holding every other field
fixed increases `estimate_high` monotonically (non-strictly: truncation
to an integer can absorb small volume increases). -/
theorem C5_estimate_high_monotone (lead : Lead) (c₁ c₂ : ℚ) (h : c₁ < c₂) :
    estimate_high {lead with total_cbm := some c₁}
      ≤ estimate_high {lead with total_cbm := some c₂} := by
  cases lead with
  | mk id pu dr pt pa da cbm w b f st =>
    unfold estimate_high
    apply pyInt_mono
    apply mul_le_mul_of_nonneg_right ?_ (by norm_num [HIGH_MULTIPLIER])
    unfold subtotal
    dsimp only
    have hw : weight_cost ⟨id, pu, dr, pt, pa, da, some c₁, w, b, f, st⟩
        = weight_cost ⟨id, pu, dr, pt, pa, da, some c₂, w, b, f, st⟩ := rfl
    have hd : distance_cost ⟨id, pu, dr, pt, pa, da, some c₁, w, b, f, st⟩
        = distance_cost ⟨id, pu, dr, pt, pa, da, some c₂, w, b, f, st⟩ := rfl
    rw [hw, hd]
    simp only [Option.getD_some]
    have hc : ((c₁ : ℚ) : ℝ) ≤ ((c₂ : ℚ) : ℝ) := by exact_mod_cast h.le
    have hp : (0 : ℝ) ≤ ((PRICE_PER_CBM : ℚ) : ℝ) := by norm_num [PRICE_PER_CBM]
    have := mul_le_mul_of_nonneg_right hc hp
    linarith

/-- Witness for C5 (amended) at volumes 1 < 2 on an otherwise empty lead. -/
theorem C5_estimate_high_monotone_witness :
    estimate_high ⟨0, none, none, none, none, none, some 1, none, none, none, "active"⟩
      ≤ estimate_high ⟨0, none, none, none, none, none, some 2, none, none, none, "active"⟩ :=
  C5_estimate_high_monotone
    ⟨0, none, none, none, none, none, none, none, none, none, "active"⟩ 1 2 (by norm_num)

/-! ## C9 — zero coordinates disable distance pricing -/

/-- C9: the distance component is priced only when all four coordinates
are present and nonzero; a coordinate that is absent or exactly 0 (Python
falsiness in `all([...])`) forces `distance_cost = 0` even when both
location dicts are set. -/
theorem C9_zero_coordinate_disables_distance (lead : Lead) (p q : Location)
    (hp : lead.pickup = some p) (hq : lead.dropoff = some q)
    (h : p.lat = none ∨ p.lat = some 0 ∨ p.lng = none ∨ p.lng = some 0
      ∨ q.lat = none ∨ q.lat = some 0 ∨ q.lng = none ∨ q.lng = some 0) :
    distance_cost lead = 0 := by
  have hfail : ¬(pyTruthy p.lat ∧ pyTruthy p.lng ∧ pyTruthy q.lat ∧ pyTruthy q.lng) := by
    rcases h with h | h | h | h | h | h | h | h <;> rw [h] <;> simp [pyTruthy]
  unfold distance_cost
  rw [hp, hq]
  dsimp only
  rw [if_neg hfail]

/-- Witness for C9: pickup on the Greenwich meridian (lng exactly 0) and
a dropoff thousands of miles away still price distance at zero. -/
theorem C9_zero_coordinate_disables_distance_witness :
    distance_cost ⟨0, some ⟨some 51.5, some 0⟩, some ⟨some 40, some (-75)⟩, none, none, none,
      none, none, none, none, "active"⟩ = 0 :=
  C9_zero_coordinate_disables_distance _ ⟨some 51.5, some 0⟩ ⟨some 40, some (-75)⟩ rfl rfl
    (Or.inr (Or.inr (Or.inr (Or.inl rfl))))

/-! ## Lemmas about the matching engine -/

theorem distance_self {lat lng : ℝ} (h : validate_coordinates lat lng) :
    calculate_distance_miles lat lng lat lng = 0 := by
  unfold calculate_distance_miles
  rw [if_neg (not_not_intro ⟨h, h⟩), haversine_a_self, Real.sqrt_zero, sub_zero,
    Real.sqrt_one, atan2_zero_one]
  ring

theorem mem_matchFilter {plat plng : ℝ} {cbm : ℚ} {pt : String} {c : Company} :
    ∀ {l : List Company}, c ∈ matchFilter plat plng cbm pt l
      ↔ c ∈ l ∧ company_passes plat plng cbm pt c := by
  intro l
  induction l with
  | nil => simp [matchFilter]
  | cons d rest ih =>
    unfold matchFilter
    by_cases hd : company_passes plat plng cbm pt d
    · rw [if_pos hd]
      simp only [List.mem_cons, ih]
      constructor
      · rintro (rfl | ⟨hm, hp⟩)
        · exact ⟨Or.inl rfl, hd⟩
        · exact ⟨Or.inr hm, hp⟩
      · rintro ⟨rfl | hm, hp⟩
        · exact Or.inl rfl
        · exact Or.inr ⟨hm, hp⟩
    · rw [if_neg hd]
      rw [ih]
      simp only [List.mem_cons]
      constructor
      · rintro ⟨hm, hp⟩
        exact ⟨Or.inr hm, hp⟩
      · rintro ⟨rfl | hm, hp⟩
        · exact absurd hp hd
        · exact ⟨hm, hp⟩

theorem find_matching_singleton (lead : Lead) (c : Company) (plat plng : ℝ)
    (hplat : lead.pickup.bind Location.lat = some plat)
    (hplng : lead.pickup.bind Location.lng = some plng)
    (hact : c.is_active = true) (hbl : c.base_lat.isSome = true)
    (hbg : c.base_lng.isSome = true)
    (hpass : company_passes plat plng (lead.total_cbm.getD 0)
      (py_strip (lead.property_type.getD "")) c) :
    find_matching_companies lead [c] = [c] := by
  unfold find_matching_companies
  rw [hplat, hplng]
  dsimp only
  rw [List.filter_cons_of_pos (by rw [hact, hbl, hbg]; rfl), List.filter_nil]
  unfold matchFilter
  rw [if_pos hpass]
  rfl

/-! ## C7 — missing pickup coordinates -/

/-- C7: a lead whose pickup dict is absent or carries no lat/lng entry
yields an empty match list, whatever the company set. -/
theorem C7_missing_pickup_empty_matches (lead : Lead) (companies : List Company)
    (h : lead.pickup = none
      ∨ ∃ p, lead.pickup = some p ∧ (p.lat = none ∨ p.lng = none)) :
    find_matching_companies lead companies = [] := by
  unfold find_matching_companies
  rcases h with h | ⟨p, hp, hc⟩
  · rw [h]
    rfl
  · rw [hp]
    simp only [Option.some_bind]
    rcases hc with h1 | h1
    · rw [h1]
    · rw [h1]
      cases p.lat <;> rfl

/-- Witness for C7: a lead with `pickup = None` against a nonempty
company set. -/
theorem C7_missing_pickup_empty_matches_witness :
    find_matching_companies
      ⟨0, none, none, none, none, none, none, none, none, none, "active"⟩
      [⟨1, true, some 51, some 0, none, none, none, none⟩] = [] :=
  C7_missing_pickup_empty_matches _ _ (Or.inl rfl)

/-! ## C8 — property-type preference filter -/

/-- C8 counterexample: the company restricted to ["House"] does match a
lead whose property type is "house " (trailing blank), although that
property type is *not* case-insensitively equal to any entry — the code
compares after stripping whitespace from the lead's property type, which
the claim does not allow. -/
theorem C8_property_type_counterexample :
    find_matching_companies
        ⟨0, some ⟨some 51, some 0⟩, none, some "house ", none, none, none, none, none, none,
          "active"⟩
        [⟨1, true, some 51, some 0, none, none, none, some ["House"]⟩]
      = [⟨1, true, some 51, some 0, none, none, none, some ["House"]⟩]
    ∧ ∀ t ∈ (["House"] : List String), ¬(py_lower "house " = py_lower t) := by
  constructor
  · refine find_matching_singleton
      ⟨0, some ⟨some 51, some 0⟩, none, some "house ", none, none, none, none, none, none,
        "active"⟩
      ⟨1, true, some 51, some 0, none, none, none, some ["House"]⟩
      51 0 rfl rfl rfl rfl rfl ⟨?_, trivial, trivial, ?_⟩
    · have hd : calculate_distance_miles 51 0 51 0 = 0 :=
        distance_self (by norm_num [validate_coordinates])
      show ¬(calculate_distance_miles 51 0 51 0 > _)
      rw [hd]
      norm_num [effective_radius]
    · show property_type_ok (py_strip "house ") _
      decide
  · decide

/-- C8 (amended): with empty/unset `pref_property_types` no filter
applies; with a non-empty list the company matches exactly when the
lead's **whitespace-trimmed** property type is case-insensitively equal
to a non-empty entry of the list (empty-string entries are discarded). -/
theorem C8_property_type_filter_amended (lead : Lead) (companies : List Company)
    (c : Company) (plat plng : ℝ)
    (hplat : lead.pickup.bind Location.lat = some plat)
    (hplng : lead.pickup.bind Location.lng = some plng)
    (hmem : c ∈ companies) (hact : c.is_active = true)
    (hbl : c.base_lat.isSome = true) (hbg : c.base_lng.isSome = true)
    (hdist : ¬(calculate_distance_miles (c.base_lat.getD 0) (c.base_lng.getD 0) plat plng
        > ((effective_radius c : ℤ) : ℝ)))
    (hmin : ∀ m, c.pref_min_cbm = some m → ¬(lead.total_cbm.getD 0 < m))
    (hmax : ∀ m, c.pref_max_cbm = some m → ¬(lead.total_cbm.getD 0 > m)) :
    ((c.pref_property_types = none ∨ c.pref_property_types = some [])
      → c ∈ find_matching_companies lead companies)
    ∧ (∀ ts, c.pref_property_types = some ts → ts ≠ [] →
        (c ∈ find_matching_companies lead companies ↔
          py_lower (py_strip (lead.property_type.getD ""))
            ∈ (ts.filter (fun t => t ≠ "")).map py_lower)) := by
  have hpassmin : (match c.pref_min_cbm with
      | none => True | some m => ¬(lead.total_cbm.getD 0 < m)) := by
    cases hm : c.pref_min_cbm with
    | none => trivial
    | some m => exact hmin m hm
  have hpassmax : (match c.pref_max_cbm with
      | none => True | some m => ¬(lead.total_cbm.getD 0 > m)) := by
    cases hm : c.pref_max_cbm with
    | none => trivial
    | some m => exact hmax m hm
  have hcand : c ∈ companies.filter
      (fun c => c.is_active && c.base_lat.isSome && c.base_lng.isSome) :=
    List.mem_filter.mpr ⟨hmem, by rw [hact, hbl, hbg]; rfl⟩
  have hbuild : ∀ (_ : property_type_ok (py_strip (lead.property_type.getD "")) c),
      company_passes plat plng (lead.total_cbm.getD 0)
        (py_strip (lead.property_type.getD "")) c :=
    fun hpt => ⟨hdist, hpassmin, hpassmax, hpt⟩
  unfold find_matching_companies
  rw [hplat, hplng]
  dsimp only
  constructor
  · intro hempty
    apply mem_matchFilter.mpr ⟨hcand, hbuild ?_⟩
    unfold property_type_ok
    rcases hempty with h | h <;> rw [h]
    · trivial
    · dsimp only
      rw [if_pos rfl]
      trivial
  · intro ts hts htne
    have hptiff : property_type_ok (py_strip (lead.property_type.getD "")) c ↔
        py_lower (py_strip (lead.property_type.getD ""))
          ∈ (ts.filter (fun t => t ≠ "")).map py_lower := by
      unfold property_type_ok
      rw [hts]
      dsimp only
      rw [if_neg htne]
    rw [mem_matchFilter]
    constructor
    · rintro ⟨-, hpass⟩
      exact hptiff.mp hpass.2.2.2
    · intro hmem2
      exact ⟨hcand, hbuild (hptiff.mpr hmem2)⟩

/-- Witness for C8 (amended): a company with no property-type preference
(and base at the lead's pickup point) is matched. -/
theorem C8_property_type_filter_amended_witness :
    (⟨1, true, some 51, some 0, none, none, none, none⟩ : Company)
      ∈ find_matching_companies
        ⟨0, some ⟨some 51, some 0⟩, none, none, none, none, none, none, none, none, "active"⟩
        [⟨1, true, some 51, some 0, none, none, none, none⟩] :=
  (C8_property_type_filter_amended
    ⟨0, some ⟨some 51, some 0⟩, none, none, none, none, none, none, none, none, "active"⟩
    [⟨1, true, some 51, some 0, none, none, none, none⟩]
    ⟨1, true, some 51, some 0, none, none, none, none⟩ 51 0
    rfl rfl (List.mem_singleton.mpr rfl) rfl rfl rfl
    (by
      have hd : calculate_distance_miles 51 0 51 0 = 0 :=
        distance_self (by norm_num [validate_coordinates])
      show ¬(calculate_distance_miles 51 0 51 0 > _)
      rw [hd]
      norm_num [effective_radius])
    (by intro m hm; cases hm) (by intro m hm; cases hm)).1 (Or.inl rfl)

/-! ## C10 — zero service radius falls back to the default 30 -/

theorem matchFilter_singleton_length (plat plng : ℝ) (cbm : ℚ) (pt : String)
    (c d : Company)
    (hiff : company_passes plat plng cbm pt c ↔ company_passes plat plng cbm pt d) :
    (matchFilter plat plng cbm pt [c]).length = (matchFilter plat plng cbm pt [d]).length := by
  unfold matchFilter
  by_cases h : company_passes plat plng cbm pt c
  · rw [if_pos h, if_pos (hiff.mp h)]
    rfl
  · rw [if_neg h, if_neg (fun hd => h (hiff.mpr hd))]

/-- C10: a company whose `service_radius_miles` is 0 is treated exactly
like one whose radius is unset — Python's `or 30` maps both to the
default radius 30 — so the filter chain and the number of matches for
such a company coincide with the unset case: it can still match leads
up to 30 miles from its base. -/
theorem C10_zero_radius_default (lead : Lead) (c : Company) (plat plng : ℝ)
    (cbm : ℚ) (pt : String) :
    effective_radius {c with service_radius_miles := some 0} = 30
    ∧ effective_radius {c with service_radius_miles := none} = 30
    ∧ (company_passes plat plng cbm pt {c with service_radius_miles := some 0}
        ↔ company_passes plat plng cbm pt {c with service_radius_miles := none})
    ∧ (find_matching_companies lead [{c with service_radius_miles := some 0}]).length
      = (find_matching_companies lead [{c with service_radius_miles := none}]).length := by
  cases c with
  | mk id act bl bg r mn mx ts =>
    refine ⟨rfl, rfl, Iff.rfl, ?_⟩
    unfold find_matching_companies
    cases lead.pickup.bind Location.lat with
    | none => rfl
    | some plat' =>
      cases lead.pickup.bind Location.lng with
      | none => rfl
      | some plng' =>
        dsimp only
        by_cases hpred : (act && bl.isSome && bg.isSome) = true
        · rw [List.filter_cons_of_pos (by exact hpred),
            List.filter_cons_of_pos (by exact hpred), List.filter_nil]
          exact matchFilter_singleton_length _ _ _ _ _ _ Iff.rfl
        · rw [List.filter_cons_of_neg (by exact hpred),
            List.filter_cons_of_neg (by exact hpred), List.filter_nil]

/-! ## C1 — notification uniqueness and distribution idempotency -/

theorem countPair_append (xs ys : List LeadNotification) (lid cid : ℕ) :
    countPair (xs ++ ys) lid cid = countPair xs lid cid + countPair ys lid cid := by
  simp [countPair, List.filter_append]

theorem countPair_map_same (cs : List Company) (lid cid : ℕ) :
    countPair (cs.map (fun c => ⟨lid, c.id, "email"⟩)) lid cid
      = (cs.filter (fun c => c.id == cid)).length := by
  induction cs with
  | nil => rfl
  | cons c rest ih =>
    simp only [List.map_cons, countPair, List.filter_cons] at *
    have hpred : ((⟨lid, c.id, "email"⟩ : LeadNotification).lead_id == lid
        && (⟨lid, c.id, "email"⟩ : LeadNotification).company_id == cid) = (c.id == cid) := by
      simp
    rw [hpred]
    by_cases h : (c.id == cid) = true
    · rw [if_pos h, if_pos h]
      simp [ih]
    · rw [if_neg h, if_neg h]
      exact ih

theorem distribute_lead_count (leads : List Lead) (companies : List Company)
    (notifs : List LeadNotification) (lid cid : ℕ) (lead : Lead)
    (hfind : leads.find? (fun l => l.id == lid) = some lead)
    (hstatus : lead.status = "active") (hid : lead.id = lid) :
    countPair (distribute_lead leads companies notifs lid) lid cid
      = countPair notifs lid cid
        + ((find_matching_companies lead companies).filter (fun c => c.id == cid)).length := by
  unfold distribute_lead
  rw [hfind]
  dsimp only
  rw [if_neg (fun h => h hstatus), hid, countPair_append, countPair_map_same]

/-- C1 counterexample: one active lead (id 7, pickup at its matching
company's base) and one company (id 3); running `distribute_lead` twice
starting from an empty notification table leaves **two** rows for the
pair (lead 7, company 3), not one — and the schema's
(company_id, lead_id) index is not unique, so nothing rejects the
duplicate insert. -/
theorem C1_duplicate_rows_counterexample :
    countPair
      (distribute_lead
        [⟨7, some ⟨some 51, some (-1)⟩, none, none, none, none, none, none, none, none,
          "active"⟩]
        [⟨3, true, some 51, some (-1), none, none, none, none⟩]
        (distribute_lead
          [⟨7, some ⟨some 51, some (-1)⟩, none, none, none, none, none, none, none, none,
            "active"⟩]
          [⟨3, true, some 51, some (-1), none, none, none, none⟩] [] 7) 7) 7 3 = 2
    ∧ lead_notifications_pair_unique = false := by
  set L1 : Lead :=
    ⟨7, some ⟨some 51, some (-1)⟩, none, none, none, none, none, none, none, none, "active"⟩
    with hL1
  set K1 : Company := ⟨3, true, some 51, some (-1), none, none, none, none⟩ with hK1
  have hmatch : find_matching_companies L1 [K1] = [K1] := by
    refine find_matching_singleton L1 K1 51 (-1) rfl rfl rfl rfl rfl
      ⟨?_, trivial, trivial, trivial⟩
    have hd : calculate_distance_miles 51 (-1) 51 (-1) = 0 :=
      distance_self (by norm_num [validate_coordinates])
    show ¬(calculate_distance_miles 51 (-1) 51 (-1) > _)
    rw [hd]
    norm_num [effective_radius]
  have hinner : distribute_lead [L1] [K1] [] 7 = [⟨7, 3, "email"⟩] := by
    unfold distribute_lead
    rw [show List.find? (fun l => l.id == 7) [L1] = some L1 from rfl]
    dsimp only
    rw [if_neg (fun h => h rfl), hmatch]
    rfl
  have houter : distribute_lead [L1] [K1] [⟨7, 3, "email"⟩] 7
      = [⟨7, 3, "email"⟩, ⟨7, 3, "email"⟩] := by
    unfold distribute_lead
    rw [show List.find? (fun l => l.id == 7) [L1] = some L1 from rfl]
    dsimp only
    rw [if_neg (fun h => h rfl), hmatch]
    rfl
  rw [hinner, houter]
  exact ⟨rfl, rfl⟩

/-- C1 (amended): the (company_id, lead_id) index on lead_notifications
is not declared unique, and `distribute_lead` inserts without checking
for existing rows, so running distribution twice for the same active
lead appends **two** notification rows per matched company on top of the
existing count — distribution is not idempotent. -/
theorem C1_distribution_not_idempotent (leads : List Lead) (companies : List Company)
    (notifs : List LeadNotification) (lid cid : ℕ) (lead : Lead)
    (hfind : leads.find? (fun l => l.id == lid) = some lead)
    (hstatus : lead.status = "active") :
    countPair (distribute_lead leads companies
        (distribute_lead leads companies notifs lid) lid) lid cid
      = countPair notifs lid cid
        + 2 * ((find_matching_companies lead companies).filter
            (fun c => c.id == cid)).length
    ∧ lead_notifications_pair_unique = false := by
  have hid : lead.id = lid := by
    have hbeq := List.find?_some hfind
    simpa using hbeq
  constructor
  · rw [distribute_lead_count leads companies _ lid cid lead hfind hstatus hid,
      distribute_lead_count leads companies notifs lid cid lead hfind hstatus hid]
    ring
  · rfl

/-- Witness for C1 (amended) at the concrete one-lead/one-company state. -/
theorem C1_distribution_not_idempotent_witness :
    countPair
      (distribute_lead
        [⟨7, some ⟨some 51, some (-1)⟩, none, none, none, none, none, none, none, none,
          "active"⟩]
        [⟨3, true, some 51, some (-1), none, none, none, none⟩]
        (distribute_lead
          [⟨7, some ⟨some 51, some (-1)⟩, none, none, none, none, none, none, none, none,
            "active"⟩]
          [⟨3, true, some 51, some (-1), none, none, none, none⟩] [] 7) 7) 7 3
      = countPair [] 7 3
        + 2 * ((find_matching_companies
            ⟨7, some ⟨some 51, some (-1)⟩, none, none, none, none, none, none, none, none,
              "active"⟩
            [⟨3, true, some 51, some (-1), none, none, none, none⟩]).filter
              (fun c => c.id == 3)).length :=
  (C1_distribution_not_idempotent
    [⟨7, some ⟨some 51, some (-1)⟩, none, none, none, none, none, none, none, none,
      "active"⟩]
    [⟨3, true, some 51, some (-1), none, none, none, none⟩] [] 7 3
    ⟨7, some ⟨some 51, some (-1)⟩, none, none, none, none, none, none, none, none, "active"⟩
    rfl rfl).1

end PrimeHaul
